import Mathlib

/-!
Verification development for the event-gateway deployment plugin
(`src/index.js`).  The JavaScript source is shallowly embedded: JS strings
that may be `undefined` become `Option String`, thrown exceptions become
explicit error values, and the gateway / cloud-provider network boundary is
modelled by explicit call traces and oracles for the remote results.
-/

namespace EGPlugin

/-- JS truthiness of a string-or-undefined value: `undefined` and `""` are
falsy, every other string is truthy. -/
def jsTruthy : Option String → Bool
  | none => false
  | some s => ¬ s = ""

/-- JS template-string interpolation of a string-or-undefined value:
`undefined` prints as `"undefined"`. -/
def jsTemplate : Option String → String
  | none => "undefined"
  | some s => s

/-- Character-level model of JS `String.prototype.split` with a one-character
separator (`fullArn.split(':')` in the source). -/
def splitChars (sep : Char) : List Char → List (List Char)
  | [] => [[]]
  | c :: rest =>
    let r := splitChars sep rest
    if c = sep then [] :: r
    else
      match r with
      | [] => [[c]]
      | g :: gs => (c :: g) :: gs

/-- JS `s.split(sep)` for a one-character separator. -/
def jsSplit (s : String) (sep : Char) : List String :=
  (splitChars sep s.data).map (fun l => String.mk l)

/-- JS `Array.prototype.join` (used as `.slice(0,7).join(':')` in the source). -/
def jsJoin (sep : String) : List String → String
  | [] => ""
  | [s] => s
  | s :: rest => s ++ sep ++ jsJoin sep rest

/-- JS `String.prototype.toUpperCase` (ASCII, as exercised by the source). -/
def jsToUpper (s : String) : String :=
  String.mk (s.data.map Char.toUpper)

/-- JS `path.startsWith("/")` from the source's path normalization. -/
def startsWithSlash (s : String) : Bool :=
  match s.data with
  | [] => false
  | c :: _ => c = '/'

/-! ## Data model (§3 of the project configuration / gateway records) -/

/-- One `eventgateway:` trigger declaration on a declared function
(`event`, `path`, `method`, `cors` keys; any of them may be absent). -/
structure GatewayEvent where
  event : Option String
  path : Option String
  method : Option String
  cors : Option String
deriving DecidableEq, Repr

/-- One entry of a declared function's `events` list.  Only the presence or
absence of its `eventgateway` section is observed by the plugin. -/
structure TriggerEvent where
  eventgateway : Option GatewayEvent
deriving DecidableEq, Repr

/-- A function of the project, as the host tool's service model exposes it:
its name and its (possibly absent) `events` list.  The service is an
object keyed by function name, so names are distinct by construction. -/
structure DeclaredFunction where
  name : String
  events : Option (List TriggerEvent)
deriving DecidableEq, Repr

/-- The `provider` descriptor sent on `registerFunction`
(source lines 150-156).  `ptype` stands for the JS key `type`. -/
structure Provider where
  ptype : String
  arn : String
  region : String
  awsAccessKeyId : Option String
  awsSecretAccessKey : Option String
deriving DecidableEq, Repr

/-- The function descriptor sent on `registerFunction` (source lines 148-157).
`functionId` is `fullArn.split(':')[6]`, hence possibly `undefined`. -/
structure FnDescriptor where
  functionId : Option String
  provider : Provider
deriving DecidableEq, Repr

/-- A gateway-side registered function as returned by `listFunctions`;
only its `functionId` is read by the engine. -/
structure RegisteredFn where
  functionId : String
deriving DecidableEq, Repr

/-- A gateway-side subscription as returned by `listSubscriptions`. -/
structure Subscription where
  subscriptionId : String
  functionId : Option String
  event : Option String
  method : Option String
  path : Option String
deriving DecidableEq, Repr

/-- The object passed to `eg.subscribe` (source lines 327-336); `method`
is only present for `http` events. -/
structure SubscribeRequest where
  functionId : Option String
  event : Option String
  path : String
  cors : Option String
  method : Option String
deriving DecidableEq, Repr

/-- A call made on the gateway client. -/
inductive GatewayCall
  | listFunctions
  | listSubscriptions
  | registerFunction (fn : FnDescriptor)
  | subscribe (req : SubscribeRequest)
  | unsubscribe (subscriptionId : String)
  | deleteFunction (functionId : String)
deriving DecidableEq, Repr

/-- One observable step of `configureEventGateway`: a gateway call, a console
log line, or a JS runtime error raised inside a detached async callback
(which Node reports as an unhandled rejection; it does not stop the other
callbacks). -/
inductive TraceItem
  | call (c : GatewayCall)
  | logBanner
  | logRegistered (name : String) (functionId : Option String)
  | logSubscribed (name : String) (eventName : Option String)
  | logUnsubscribed (name : String) (eventName : Option String)
  | logDeleted (functionId : String)
  | jsError (msg : String)
deriving DecidableEq, Repr

/-- The `custom.eventgateway` section of the project configuration, with the
two endpoint fields `getConfig` writes into it. -/
structure EGSection where
  subdomain : Option String
  apikey : Option String
  eventsAPI : Option String
  configurationAPI : Option String
deriving DecidableEq, Repr

/-! ## Configuration resolution and client construction -/

/-- `getConfig` (source lines 58-70).  The source assigns the two endpoint
fields directly on the stored section object (`config.eventsAPI = ...`), so
the returned value is the stored section itself, mutated; the model returns
the pair (returned config, stored section after the call). -/
def getConfig : Option EGSection → Option EGSection × Option EGSection
  | none => (none, none)
  | some s =>
    let s' : EGSection :=
      { s with
        eventsAPI := some ("https://" ++ jsTemplate s.subdomain ++ ".eventgateway-dev.io"),
        configurationAPI := some "https://config.eventgateway-dev.io/" }
    (some s', some s')

/-- Ways `getClient` (source lines 72-98) can throw.  `missingConfiguration`
is the `"No Event Gateway configuration provided"` branch at lines 75-79: it
is unreachable, because when `getConfig` returns `null` line 74 already
throws a `TypeError` reading `.apikey` of `null`. -/
inductive ClientError
  | nullConfigTypeError
  | missingConfiguration
  | missingSubdomain
  | missingApikey
deriving DecidableEq, Repr

/-- The SDK client value constructed at source lines 93-97. -/
structure Client where
  url : String
  configurationUrl : String
  space : Option String
deriving DecidableEq, Repr

/-- `getClient` (source lines 72-98), as a function of the stored
configuration section and the process-wide `EVENT_GATEWAY_TOKEN` slot.
Returns (result, token slot after the call, stored section after the call).
Line 74 runs before every validation check: it throws when the config is
`null` (reading `.apikey`), otherwise it assigns
`config.apikey || process.env.EVENT_GATEWAY_TOKEN` to the env slot
(assigning `undefined` to a `process.env` entry stores the string
`"undefined"`). -/
def getClient (stored : Option EGSection) (envToken : Option String) :
    Except ClientError Client × Option String × Option EGSection :=
  let r := getConfig stored
  match r.1, r.2 with
  | none, stored' => (.error .nullConfigTypeError, envToken, stored')
  | some config, stored' =>
    let envToken' : Option String :=
      some (if jsTruthy config.apikey then jsTemplate config.apikey
            else jsTemplate envToken)
    if ¬ jsTruthy config.subdomain then (.error .missingSubdomain, envToken', stored')
    else if ¬ jsTruthy config.apikey then (.error .missingApikey, envToken', stored')
    else (.ok { url := "http://localhost:4000", configurationUrl := "http://localhost:8080",
                space := config.subdomain }, envToken', stored')

/-! ## Subscription path and subscription creation -/

/-- `eventPath(event, subdomain)` (source lines 309-317):
`let path = event.path || "/"`, prefix `"/"` when missing, then
`` `/${subdomain}${path}` ``. -/
def eventPath (event : GatewayEvent) (subdomain : String) : String :=
  let path :=
    match event.path with
    | none => "/"
    | some p => if p = "" then "/" else p
  let path := if startsWithSlash path then path else "/" ++ path
  "/" ++ subdomain ++ path

/-- Remote results of the external gateway for the two calls whose errors the
source inspects: `none` means success, `some e` the rejection's error text. -/
structure Oracle where
  registerResult : FnDescriptor → Option String
  subscribeResult : SubscribeRequest → Option String

/-- The gateway that accepts every request. -/
def okOracle : Oracle := ⟨fun _ => none, fun _ => none⟩

/-- `registerFunction(eg, fn)` (source lines 319-324): performs the call and,
on rejection, throws ``Couldn't register a function <id>. <err>.``.
Returns (trace of the attempt, thrown error if any). -/
def registerFunction (oracle : Oracle) (fn : FnDescriptor) :
    List TraceItem × Option String :=
  ([.call (.registerFunction fn)],
   (oracle.registerResult fn).map (fun e =>
     "Couldn't register a function " ++ jsTemplate fn.functionId ++ ". " ++ e ++ "."))

/-- `createSubscription(config, eg, functionId, event)` (source lines 326-342).
When `event` is `undefined`, building `subscribeEvent` throws a `TypeError`
reading `.event` (line 329).  For an `http` event with an absent `method`,
line 335 throws a `TypeError` calling `toUpperCase` of `undefined` — the
`|| "GET"` fallback only fires when the upper-cased method is the empty
string.  Returns (trace of the attempt, thrown error if any). -/
def createSubscription (oracle : Oracle) (subdomain : String)
    (functionId : Option String) (event : Option GatewayEvent) :
    List TraceItem × Option String :=
  match event with
  | none => ([], some "TypeError: Cannot read property 'event' of undefined")
  | some ev =>
    let base : SubscribeRequest :=
      { functionId := functionId, event := ev.event, path := eventPath ev subdomain,
        cors := ev.cors, method := none }
    if ev.event = some "http" then
      match ev.method with
      | none => ([], some "TypeError: Cannot read property 'toUpperCase' of undefined")
      | some m =>
        let u := jsToUpper m
        let req := { base with method := some (if u = "" then "GET" else u) }
        ([.call (.subscribe req)],
         (oracle.subscribeResult req).map (fun e =>
           "Couldn't create subscriptions for " ++ jsTemplate functionId ++ ". " ++ e ++ "."))
    else
      ([.call (.subscribe base)],
       (oracle.subscribeResult base).map (fun e =>
         "Couldn't create subscriptions for " ++ jsTemplate functionId ++ ". " ++ e ++ "."))

/-! ## The synchronization engine (`configureEventGateway`, source lines 100-209) -/

/-- The match predicate of source lines 179-181:
`s.event == event.event && s.method == event.method &&
s.path == eventPath(event, config.subdomain)`. -/
def subMatches (subdomain : String) (ev : GatewayEvent) (s : Subscription) : Bool :=
  s.event == ev.event && s.method == ev.method && s.path == some (eventPath ev subdomain)

/-- The per-event loop of the already-registered branch (source lines
176-190), threading the `createdSubscriptions` working partition.  A list
entry without an `eventgateway` section makes `event.event` a read on
`undefined`: a `TypeError` inside that event's detached async callback,
after which the remaining events are still processed.  Returns
(remaining partition, trace). -/
def processEvents (oracle : Oracle) (subdomain : String) (name : String)
    (functionId : Option String) :
    List Subscription → List TriggerEvent → List Subscription × List TraceItem
  | created, [] => (created, [])
  | created, te :: rest =>
    match te.eventgateway with
    | none =>
      let r := processEvents oracle subdomain name functionId created rest
      (r.1, .jsError "TypeError: Cannot read property 'event' of undefined" :: r.2)
    | some ev =>
      match created.find? (subMatches subdomain ev) with
      | none =>
        let attempt := createSubscription oracle subdomain functionId (some ev)
        let r := processEvents oracle subdomain name functionId created rest
        (r.1, attempt.1 ++ .logSubscribed name ev.event :: r.2)
      | some s =>
        processEvents oracle subdomain name functionId
          (created.filter (fun s2 => ¬ s2.subscriptionId = s.subscriptionId)) rest

/-- The per-event loop of the freshly-registered branch (source lines
166-169): attempt `createSubscription` (error swallowed by `to`), then log
`` `... subscribed to "${event.eventgateway.event}" event.` `` — a
`TypeError` when the entry has no `eventgateway` section. -/
def createAllSubscriptions (oracle : Oracle) (subdomain : String) (name : String)
    (functionId : Option String) : List TriggerEvent → List TraceItem
  | [] => []
  | te :: rest =>
    let attempt := createSubscription oracle subdomain functionId te.eventgateway
    let tail :=
      match te.eventgateway with
      | none => TraceItem.jsError "TypeError: Cannot read property 'event' of undefined"
      | some ev => TraceItem.logSubscribed name ev.event
    attempt.1 ++ tail :: createAllSubscriptions oracle subdomain name functionId rest

/-- The function descriptor built at source lines 143-157 from the stack
output `fullArn`: `functionId` is ARN segment 6, the provider ARN is the
first seven segments rejoined. -/
def mkFnDescriptor (outputs : String → Option String) (region fullArn : String) :
    FnDescriptor :=
  let parts := jsSplit fullArn ':'
  { functionId := parts[6]?,
    provider :=
      { ptype := "awslambda",
        arn := jsJoin ":" (parts.take 7),
        region := region,
        awsAccessKeyId := outputs "EventGatewayUserAccessKey",
        awsSecretAccessKey := outputs "EventGatewayUserSecretKey" } }

/-- The body of the per-function `map` callback (source lines 142-198).
Returns (trace, the `functions` working array after this callback's
synchronous prefix ran).  When the function's version-ARN output is absent,
`fullArn.split` throws inside the detached callback. -/
def processFunction (oracle : Oracle) (subdomain : String)
    (outputs : String → Option String) (naming : String → String) (region : String)
    (f : DeclaredFunction) (functions : List RegisteredFn)
    (subscriptions : List Subscription) : List TraceItem × List RegisteredFn :=
  match outputs (naming f.name) with
  | none => ([.jsError "TypeError: Cannot read property 'split' of undefined"], functions)
  | some fullArn =>
    let fn := mkFnDescriptor outputs region fullArn
    let functionId := fn.functionId
    match functions.find? (fun g => some g.functionId == functionId) with
    | none =>
      let reg := registerFunction oracle fn
      let trEvents :=
        match f.events with
        | none => [TraceItem.jsError "TypeError: Cannot read property 'forEach' of undefined"]
        | some evs => createAllSubscriptions oracle subdomain f.name functionId evs
      (reg.1 ++ .logRegistered f.name functionId :: trEvents, functions)
    | some _ =>
      let functions' := functions.filter (fun g => ¬ (some g.functionId == functionId))
      match f.events with
      | none => ([.jsError "TypeError: Cannot read property 'forEach' of undefined"], functions')
      | some evs =>
        let createdSubscriptions := subscriptions.filter (fun s => s.functionId == functionId)
        let r := processEvents oracle subdomain f.name functionId createdSubscriptions evs
        let trClean := r.1.foldr (fun s acc =>
          TraceItem.call (.unsubscribe s.subscriptionId) ::
          TraceItem.logUnsubscribed f.name s.event :: acc) []
        (r.2 ++ trClean, functions')

/-- `filterFunctionsWithEvents` (source lines 211-230): the functions whose
`events` list exists and has at least one entry with an `eventgateway`
section. -/
def filterFunctionsWithEvents (service : List DeclaredFunction) :
    List DeclaredFunction :=
  service.filter (fun f =>
    match f.events with
    | none => false
    | some evs => evs.any (fun te => te.eventgateway.isSome))

/-- The `map` over qualifying functions at source line 142, threading the
`functions` working array (shrunk synchronously in the registered branch). -/
def runFunctions (oracle : Oracle) (subdomain : String)
    (outputs : String → Option String) (naming : String → String) (region : String) :
    List DeclaredFunction → List RegisteredFn → List Subscription →
    List TraceItem × List RegisteredFn
  | [], functions, _ => ([], functions)
  | f :: rest, functions, subscriptions =>
    let r := processFunction oracle subdomain outputs naming region f functions subscriptions
    let rr := runFunctions oracle subdomain outputs naming region rest r.2 subscriptions
    (r.1 ++ rr.1, rr.2)

/-- The cleanup loop at source lines 201-208: for every registered function
left in the working array, unsubscribe its subscriptions, delete it, and log
the deletion (all errors swallowed by `to`). -/
def deleteOrphans (subscriptions : List Subscription) :
    List RegisteredFn → List TraceItem
  | [] => []
  | g :: rest =>
    (subscriptions.filter (fun s => s.functionId == some g.functionId)).map
      (fun s => TraceItem.call (.unsubscribe s.subscriptionId))
    ++ TraceItem.call (.deleteFunction g.functionId)
    :: TraceItem.logDeleted g.functionId
    :: deleteOrphans subscriptions rest

/-- One entry of a CloudFormation stack's `Outputs` list. -/
structure StackOutput where
  OutputKey : Option String
  OutputValue : Option String
deriving DecidableEq, Repr

/-- A CloudFormation stack as consumed by the engine. -/
structure Stack where
  Outputs : List StackOutput
deriving DecidableEq, Repr

/-- `parseOutputs` (source lines 232-239): project the output list onto a
key/value map, dropping entries whose key or value is falsy; later
assignments overwrite earlier ones. -/
def parseOutputs (stack : Stack) : String → Option String :=
  stack.Outputs.foldl (fun agg cur =>
    match cur.OutputKey, cur.OutputValue with
    | some k, some v =>
      if k = "" ∨ v = "" then agg else fun q => if q = k then some v else agg q
    | _, _ => agg) (fun _ => none)

/-- Result of the provider's `describeStacks` call. -/
inductive DescribeResult
  | err
  | ok (stackList : List Stack)
deriving DecidableEq, Repr

/-- The fatal errors `configureEventGateway` can throw before reaching the
reconciliation loops. -/
inductive SyncError
  | clientError (e : ClientError)
  | stackDescribeFailed
  | stackNotFound
  | missingCredentialsOutput
deriving DecidableEq, Repr

/-- Everything `configureEventGateway` reads from its environment: the stored
configuration section, the env token slot, the provider's stack response,
the gateway's two list responses (`none` = the fetch rejected, which the
source downgrades to an empty list), the gateway oracle, the project's
declared functions, the host tool's output-naming convention and region. -/
structure SyncInput where
  stored : Option EGSection
  envToken : Option String
  describe : DescribeResult
  listFunctionsResult : Option (List RegisteredFn)
  listSubscriptionsResult : Option (List Subscription)
  oracle : Oracle
  service : List DeclaredFunction
  naming : String → String
  region : String

/-- `configureEventGateway` (source lines 100-209), returning the observable
trace and the thrown error, if any.  Gateway-call order inside the detached
per-function callbacks is normalized to per-function sequential order; the
set of calls, logs and JS errors is exactly the source's. -/
def configureEventGateway (inp : SyncInput) : List TraceItem × Except SyncError Unit :=
  let c := getConfig inp.stored
  let cl := getClient c.2 inp.envToken
  match cl.1 with
  | .error e => ([], .error (.clientError e))
  | .ok _ =>
    let subdomain := jsTemplate ((c.1.map (fun s => s.subdomain)).getD none)
    match inp.describe with
    | .err => ([.logBanner], .error .stackDescribeFailed)
    | .ok stackList =>
      match stackList.getLast? with
      | none => ([.logBanner], .error .stackNotFound)
      | some stack =>
        let outputs := parseOutputs stack
        if ¬ jsTruthy (outputs "EventGatewayUserAccessKey") ∨
           ¬ jsTruthy (outputs "EventGatewayUserSecretKey") then
          ([.logBanner], .error .missingCredentialsOutput)
        else
          let functions0 := inp.listFunctionsResult.getD []
          let subscriptions := inp.listSubscriptionsResult.getD []
          let r := runFunctions inp.oracle subdomain outputs inp.naming inp.region
            (filterFunctionsWithEvents inp.service) functions0 subscriptions
          (TraceItem.logBanner :: TraceItem.call .listFunctions ::
             TraceItem.call .listSubscriptions :: r.1 ++ deleteOrphans subscriptions r.2,
           .ok ())

/-! ## Trace observations and the external gateway's state model -/

/-- The state-changing gateway calls named by the idempotence property:
`registerFunction`, `subscribe`, `unsubscribe`, `deleteFunction`. -/
def isMutationCall : TraceItem → Bool
  | .call (.registerFunction _) => true
  | .call (.subscribe _) => true
  | .call (.unsubscribe _) => true
  | .call (.deleteFunction _) => true
  | _ => false

/-- The state-changing gateway calls of a trace. -/
def mutationCalls (tr : List TraceItem) : List TraceItem := tr.filter isMutationCall

/-- All gateway calls of a trace, the two list fetches included. -/
def gatewayCalls (tr : List TraceItem) : List TraceItem :=
  tr.filter (fun t => match t with | .call _ => true | _ => false)

/-- The JS runtime errors of a trace. -/
def jsErrors (tr : List TraceItem) : List TraceItem :=
  tr.filter (fun t => match t with | .jsError _ => true | _ => false)

/-- The gateway's live records. -/
structure GatewayState where
  functions : List RegisteredFn
  subscriptions : List Subscription
deriving DecidableEq, Repr

/-- Model of the external gateway consuming one trace item when every call
succeeds: registrations append a record, subscriptions append a record under
a fresh id drawn from `fresh` with a running counter, unsubscriptions and
deletions remove by id.  Logs and JS errors change nothing. -/
def applyItem (fresh : Nat → String) : GatewayState × Nat → TraceItem → GatewayState × Nat
  | (st, n), .call (.registerFunction fn) =>
    match fn.functionId with
    | some fid => ({ st with functions := st.functions ++ [⟨fid⟩] }, n)
    | none => (st, n)
  | (st, n), .call (.subscribe req) =>
    ({ st with subscriptions := st.subscriptions ++
        [{ subscriptionId := fresh n, functionId := req.functionId,
           event := req.event, method := req.method, path := some req.path }] }, n + 1)
  | (st, n), .call (.unsubscribe sid) =>
    ({ st with subscriptions := st.subscriptions.filter (fun s => ¬ s.subscriptionId = sid) }, n)
  | (st, n), .call (.deleteFunction fid) =>
    ({ st with functions := st.functions.filter (fun g => ¬ g.functionId = fid) }, n)
  | (st, n), _ => (st, n)

/-- The gateway state after a whole trace. -/
def applyTrace (fresh : Nat → String) (st : GatewayState × Nat) (tr : List TraceItem) :
    GatewayState × Nat :=
  tr.foldl (applyItem fresh) st

/-- An injective supply of gateway-assigned subscription ids. -/
def natId (n : Nat) : String := String.mk (List.replicate n 'i')

/-! ## Template augmentation (`addUserDefinition`, source lines 241-306) -/

/-- A JSON-like template value: string literals, arrays, and objects as
ordered key/value lists. -/
inductive JVal
  | str (s : String)
  | arr (xs : List JVal)
  | obj (fields : List (String × JVal))

mutual

/-- `lodash.merge(dest, src)`: deep merge, `src` winning on primitives,
objects merged key by key, arrays merged index by index. -/
def jmerge : JVal → JVal → JVal
  | .obj d, .obj s => .obj (jmergeInto d s)
  | .arr d, .arr s => .arr (jmergeArr d s)
  | _, s => s
termination_by _ b => (sizeOf b, 1, 0)

/-- Merge each source field into the destination object's field list. -/
def jmergeInto (d : List (String × JVal)) : List (String × JVal) → List (String × JVal)
  | [] => d
  | (k, v) :: rest => jmergeInto (jupsert d k v) rest
termination_by s => (sizeOf s, 3, 0)

/-- Merge one field into an object's field list: an existing key keeps its
position and deep-merges, a fresh key is appended. -/
def jupsert : List (String × JVal) → String → JVal → List (String × JVal)
  | [], k, v => [(k, v)]
  | (k', v') :: rest, k, v =>
    if k' = k then (k', jmerge v' v) :: rest else (k', v') :: jupsert rest k v
termination_by d _ v => (sizeOf v, 2, sizeOf d)

/-- Index-wise merge of two arrays. -/
def jmergeArr : List JVal → List JVal → List JVal
  | d, [] => d
  | [], s => s
  | x :: d, y :: s => jmerge x y :: jmergeArr d s
termination_by _ s => (sizeOf s, 1, 0)

end

/-- The `Resources` and `Outputs` collections of the compiled deployment
template. -/
structure Template where
  Resources : List (String × JVal)
  Outputs : List (String × JVal)

/-- The ARN references collected at source lines 242-249: one
`Fn::GetAtt` per qualifying function. -/
def arnRefs (naming2 : String → String) (service : List DeclaredFunction) : List JVal :=
  (filterFunctionsWithEvents service).map (fun f =>
    JVal.obj [("Fn::GetAtt", JVal.arr [JVal.str (naming2 f.name), JVal.str "Arn"])])

/-- The three IAM resources merged at source lines 250-287. -/
def egUserResources (resources : List JVal) : List (String × JVal) :=
  [("EventGatewayUser", .obj [("Type", .str "AWS::IAM::User")]),
   ("EventGatewayUserPolicy", .obj
     [("Type", .str "AWS::IAM::ManagedPolicy"),
      ("Properties", .obj
        [("Description", .str "This policy allows Custom plugin to gather data on IAM users"),
         ("PolicyDocument", .obj
           [("Version", .str "2012-10-17"),
            ("Statement", .arr
              [.obj [("Effect", .str "Allow"),
                     ("Action", .arr [.str "lambda:InvokeFunction"]),
                     ("Resource", .arr resources)]])]),
         ("Users", .arr [.obj [("Ref", .str "EventGatewayUser")]])])]),
   ("EventGatewayUserKeys", .obj
     [("Type", .str "AWS::IAM::AccessKey"),
      ("Properties", .obj [("UserName", .obj [("Ref", .str "EventGatewayUser")])])])]

/-- The two outputs merged at source lines 289-305. -/
def egOutputs : List (String × JVal) :=
  [("EventGatewayUserAccessKey", .obj
     [("Value", .obj [("Ref", .str "EventGatewayUserKeys")]),
      ("Description", .str "Access Key ID of Custom User")]),
   ("EventGatewayUserSecretKey", .obj
     [("Value", .obj [("Fn::GetAtt", .arr [.str "EventGatewayUserKeys", .str "SecretAccessKey"])]),
      ("Description", .str "Secret Key of Custom User")])]

/-- `addUserDefinition` (source lines 241-306): merge the IAM resources and
the two credential outputs into the compiled template. -/
def addUserDefinition (naming2 : String → String) (service : List DeclaredFunction)
    (t : Template) : Template :=
  { Resources := jmergeInto t.Resources (egUserResources (arnRefs naming2 service)),
    Outputs := jmergeInto t.Outputs egOutputs }

/-! ## Definitions used to state the claims -/

/-- The path-construction rule in the specification's words (§4.3): default
the declared path to `"/"` when absent, prefix `"/"` when it does not start
with one, and prepend the subdomain. -/
def buildPathSpec (path? : Option String) (subdomain : String) : String :=
  let p :=
    match path? with
    | none => "/"
    | some q => if startsWithSlash q then q else "/" ++ q
  "/" ++ subdomain ++ p

/-- The gateway events declared on a function, in order. -/
def gatewayEventsOf (f : DeclaredFunction) : List GatewayEvent :=
  (f.events.getD []).filterMap (fun te => te.eventgateway)

/-- A declared gateway event whose wire form round-trips through the
engine's own subscribe request: an `http` event must carry a non-empty,
already upper-case method, any other event must carry no method. -/
def canonicalEvent (ev : GatewayEvent) : Bool :=
  if ev.event = some "http" then
    match ev.method with
    | some m => ¬ m = "" && jsToUpper m = m
    | none => false
  else ev.method == none

/-- The `functionId` the engine derives for a declared function: ARN
segment 6 of its version output (source lines 143-147). -/
def fidOf (outputs : String → Option String) (naming : String → String)
    (f : DeclaredFunction) : Option String :=
  (outputs (naming f.name)).bind (fun arn => (jsSplit arn ':')[6]?)

/-- The gateway-side subscription record produced by a successful subscribe
built from a canonical declared event. -/
def subOf (subdomain fid sid : String) (ev : GatewayEvent) : Subscription :=
  { subscriptionId := sid, functionId := some fid, event := ev.event,
    method := ev.method, path := some (eventPath ev subdomain) }

/-- The subscriptions a run creates for one function's canonical gateway
events, under ids `fresh n`, `fresh (n+1)`, …. -/
def mkSubs (fresh : Nat → String) (n : Nat) (subdomain fid : String) :
    List GatewayEvent → List Subscription
  | [] => []
  | ev :: rest => subOf subdomain fid (fresh n) ev :: mkSubs fresh (n + 1) subdomain fid rest

/-- The gateway's whole subscription list after a first run from an empty
gateway: one block of `mkSubs` per qualifying function, in order. -/
def run1Subs (fresh : Nat → String) (n : Nat) (subdomain : String)
    (fidF : DeclaredFunction → String) : List DeclaredFunction → List Subscription
  | [] => []
  | f :: rest =>
    mkSubs fresh n subdomain (fidF f) (gatewayEventsOf f)
    ++ run1Subs fresh (n + (gatewayEventsOf f).length) subdomain fidF rest

/-- Every gateway event declared on `f` is canonical. -/
def canonicalFunction (f : DeclaredFunction) : Bool :=
  (f.events.getD []).all (fun te =>
    match te.eventgateway with
    | none => true
    | some ev => canonicalEvent ev)

/-- Total number of declared gateway events across a function list. -/
def totalGatewayEvents : List DeclaredFunction → Nat
  | [] => 0
  | f :: rest => (gatewayEventsOf f).length + totalGatewayEvents rest

/-! ## Concrete scenarios used by counterexamples and witnesses -/

/-- A valid configuration section: subdomain `acme`, apikey `key`. -/
def cexSection : EGSection := ⟨some "acme", some "key", none, none⟩

/-- A deployed stack exposing both credentials and one function-version ARN
output under the key `fArn`. -/
def cexStack : Stack :=
  ⟨[⟨some "EventGatewayUserAccessKey", some "AK"⟩,
    ⟨some "EventGatewayUserSecretKey", some "SK"⟩,
    ⟨some "fArn", some "arn:aws:lambda:us-east-1:1:function:myfn:3"⟩]⟩

/-- One declared function with one `http` gateway event whose declared
method is the lower-case `"get"`. -/
def c1Service : List DeclaredFunction :=
  [⟨"f", some [⟨some ⟨some "http", some "/hello", some "get", none⟩⟩]⟩]

/-- First `synchronize()` run for `c1Service`, against an empty gateway. -/
def c1Run1 : SyncInput :=
  ⟨some cexSection, none, .ok [cexStack], some [], some [], okOracle, c1Service,
   fun _ => "fArn", "us-east-1"⟩

/-- The input of a second `synchronize()` run right after `inp`: the gateway
reports the state the first run left behind (every call having succeeded,
fresh subscription ids drawn from `fresh`), declarations unchanged. -/
def secondRunInput (fresh : Nat → String) (inp : SyncInput) : SyncInput :=
  let st := (applyTrace fresh (⟨[], []⟩, 0) (configureEventGateway inp).1).1
  { inp with listFunctionsResult := some st.functions,
             listSubscriptionsResult := some st.subscriptions }

/-- The same declared function with the canonical method spelling `"GET"`. -/
def c1CanonService : List DeclaredFunction :=
  [⟨"f", some [⟨some ⟨some "http", some "/hello", some "GET", none⟩⟩]⟩]

/-- First run for `c1CanonService`, against an empty gateway. -/
def c1CanonRun1 : SyncInput :=
  ⟨some cexSection, none, .ok [cexStack], some [], some [], okOracle, c1CanonService,
   fun _ => "fArn", "us-east-1"⟩

/-- One declared function with one non-`http` gateway event. -/
def c2Service : List DeclaredFunction :=
  [⟨"f", some [⟨some ⟨some "ping", some "/p", none, none⟩⟩]⟩]

/-- A gateway that rejects every registration with error text `boom`. -/
def c2Oracle : Oracle := ⟨fun _ => some "boom", fun _ => none⟩

/-- A run in which the function is unregistered and registration fails. -/
def c2Input : SyncInput :=
  ⟨some cexSection, none, .ok [cexStack], some [], some [], c2Oracle, c2Service,
   fun _ => "fArn", "us-east-1"⟩

/-- One declared function with one gateway event and one non-gateway
trigger entry (no `eventgateway` section). -/
def c4Service : List DeclaredFunction :=
  [⟨"f", some [⟨some ⟨some "ping", some "/p", none, none⟩⟩, ⟨none⟩]⟩]

/-- A run in which that function is already registered and its gateway event
already has a matching subscription. -/
def c4Input : SyncInput :=
  ⟨some cexSection, none, .ok [cexStack],
   some [⟨"myfn"⟩], some [⟨"s1", some "myfn", some "ping", none, some "/acme/p"⟩],
   okOracle, c4Service, fun _ => "fArn", "us-east-1"⟩

/-- A stack whose outputs omit `EventGatewayUserSecretKey`. -/
def c5Stack : Stack := ⟨[⟨some "EventGatewayUserAccessKey", some "AK"⟩]⟩

/-- Two qualifying declared functions and one function with no events. -/
def c8Service : List DeclaredFunction :=
  [⟨"a", some [⟨some ⟨some "http", some "/a", some "GET", none⟩⟩]⟩,
   ⟨"b", some [⟨some ⟨some "ping", none, none, none⟩⟩]⟩,
   ⟨"c", none⟩]

/-- A template that already holds one unrelated resource and one unrelated
output. -/
def c8Template : Template :=
  ⟨[("MyBucket", .obj [("Type", .str "AWS::S3::Bucket")])],
   [("OtherOutput", .str "x")]⟩

/-! # Theorems -/

/-- `undefined` is falsy. -/
theorem jsTruthy_none : jsTruthy none = false := rfl

/-- A present string is truthy exactly when non-empty. -/
theorem jsTruthy_some (s : String) : jsTruthy (some s) = true ↔ ¬ s = "" := by
  simp [jsTruthy]

/-- **C9**: `eventPath` returns `"/" ++ subdomain ++ p` where `p` is the
declared path defaulted to `"/"` when absent and prefixed with `"/"` when it
does not already start with one, with no other normalization; in particular
the three example evaluations of the claim hold. -/
theorem C9_eventPath_matches_spec :
    (∀ (ev : GatewayEvent) (subdomain : String),
        eventPath ev subdomain = buildPathSpec ev.path subdomain)
    ∧ eventPath ⟨none, some "/widgets", none, none⟩ "acme" = "/acme/widgets"
    ∧ eventPath ⟨none, some "widgets", none, none⟩ "acme" = "/acme/widgets"
    ∧ eventPath ⟨none, none, none, none⟩ "acme" = "/acme/" := by
  refine ⟨fun ev subdomain => ?_, rfl, rfl, rfl⟩
  obtain ⟨e, p, m, c⟩ := ev
  cases p with
  | none => rfl
  | some q =>
    by_cases hq : q = ""
    · subst hq; rfl
    · simp [eventPath, buildPathSpec, hq]

/-- **C6** (code bug): with no `eventgateway` section, `getClient` does fail
without constructing a client, but with a `TypeError` reading `.apikey` of
`null` at the token-assignment line — not with the `MissingConfiguration`
error, whose check is unreachable dead code. -/
theorem C6_getClient_no_section_throws_type_error :
    getClient none none = (.error .nullConfigTypeError, none, none)
    ∧ ClientError.nullConfigTypeError ≠ ClientError.missingConfiguration :=
  ⟨rfl, by decide⟩

/-- **C7 counterexample**: `getConfig` does mutate the project's stored
`eventgateway` section — after the call on a section without endpoint
fields, the stored section is no longer the original one. -/
theorem C7_getConfig_mutates_stored_section :
    ¬ ((getConfig (some cexSection)).2 = some cexSection) := by decide

/-- **C7 amended**: `getConfig` returns the stored section itself (not a
copy), augmented in place with the two endpoint fields: after the call the
stored section equals the returned one and both carry the endpoints. -/
theorem C7_getConfig_aliases_and_augments (s : EGSection) :
    getConfig (some s)
      = (some { s with
                eventsAPI := some ("https://" ++ jsTemplate s.subdomain
                  ++ ".eventgateway-dev.io"),
                configurationAPI := some "https://config.eventgateway-dev.io/" },
         some { s with
                eventsAPI := some ("https://" ++ jsTemplate s.subdomain
                  ++ ".eventgateway-dev.io"),
                configurationAPI := some "https://config.eventgateway-dev.io/" }) := rfl

/-- **C3** (code bug): for an `http` event, an absent `method` makes
`createSubscription` throw a `TypeError` (`undefined.toUpperCase`) before
any subscribe call, while the `"GET"` fallback only fires for a present,
empty method; a present non-empty method is upper-cased. -/
theorem C3_http_method_fallback_is_dead_for_absent_method :
    createSubscription okOracle "acme" (some "myfn")
        (some ⟨some "http", some "/hello", none, none⟩)
      = ([], some "TypeError: Cannot read property 'toUpperCase' of undefined")
    ∧ createSubscription okOracle "acme" (some "myfn")
        (some ⟨some "http", some "/hello", some "", none⟩)
      = ([.call (.subscribe ⟨some "myfn", some "http", "/acme/hello", none, some "GET"⟩)],
         none)
    ∧ createSubscription okOracle "acme" (some "myfn")
        (some ⟨some "http", some "/hello", some "get", none⟩)
      = ([.call (.subscribe ⟨some "myfn", some "http", "/acme/hello", none, some "GET"⟩)],
         none) :=
  ⟨rfl, rfl, rfl⟩

/-- **C10**: `getClient` writes a present, truthy `apikey` into the
process-wide `EVENT_GATEWAY_TOKEN` slot before its validation checks: even
when the call then throws the missing-subdomain error, the slot already
holds the apikey. -/
theorem C10_token_written_before_validation
    (s : EGSection) (k : String) (envToken : Option String)
    (hk : s.apikey = some k) (hk' : ¬ k = "")
    (hsub : jsTruthy s.subdomain = false) :
    (getClient (some s) envToken).2.1 = some k
    ∧ (getClient (some s) envToken).1 = .error .missingSubdomain := by
  have hkk : jsTruthy (some k) = true := (jsTruthy_some k).2 hk'
  constructor <;> simp [getClient, getConfig, hk, hkk, hsub, jsTemplate]

/-- **C10 witness**: concrete run with apikey `"secret"` and no subdomain. -/
theorem C10_token_written_before_validation_witness :
    (getClient (some ⟨none, some "secret", none, none⟩) (some "old")).2.1 = some "secret"
    ∧ (getClient (some ⟨none, some "secret", none, none⟩) (some "old")).1
      = .error .missingSubdomain :=
  C10_token_written_before_validation ⟨none, some "secret", none, none⟩ "secret"
    (some "old") rfl (by decide) (by decide)

/-- **C5**: when the fetched stack's parsed outputs lack
`EventGatewayUserAccessKey` or `EventGatewayUserSecretKey`, `synchronize()`
fails with the missing-credentials error and its trace holds no gateway
call at all (only the banner log). -/
theorem C5_missing_credentials_fails_before_gateway_calls
    (sec : EGSection) (envToken : Option String) (stackList : List Stack) (stack : Stack)
    (listF : Option (List RegisteredFn)) (listS : Option (List Subscription))
    (oracle : Oracle) (service : List DeclaredFunction)
    (naming : String → String) (region : String)
    (hsub : jsTruthy sec.subdomain = true) (hkey : jsTruthy sec.apikey = true)
    (hlast : stackList.getLast? = some stack)
    (hmiss : parseOutputs stack "EventGatewayUserAccessKey" = none
           ∨ parseOutputs stack "EventGatewayUserSecretKey" = none) :
    configureEventGateway
        ⟨some sec, envToken, .ok stackList, listF, listS, oracle, service, naming, region⟩
      = ([.logBanner], .error .missingCredentialsOutput)
    ∧ gatewayCalls (configureEventGateway
        ⟨some sec, envToken, .ok stackList, listF, listS, oracle, service,
         naming, region⟩).1 = [] := by
  have h : configureEventGateway
      ⟨some sec, envToken, .ok stackList, listF, listS, oracle, service, naming, region⟩
      = ([.logBanner], .error .missingCredentialsOutput) := by
    unfold configureEventGateway
    rcases hmiss with hm | hm <;>
      simp [getClient, getConfig, hsub, hkey, hlast, hm, jsTruthy_none]
  exact ⟨h, by rw [h]; rfl⟩

/-- **C5 witness**: a stack omitting `EventGatewayUserSecretKey`. -/
theorem C5_missing_credentials_fails_before_gateway_calls_witness :
    configureEventGateway
        ⟨some cexSection, none, .ok [c5Stack], some [], some [], okOracle, [],
         fun _ => "x", "r"⟩
      = ([.logBanner], .error .missingCredentialsOutput)
    ∧ gatewayCalls (configureEventGateway
        ⟨some cexSection, none, .ok [c5Stack], some [], some [], okOracle, [],
         fun _ => "x", "r"⟩).1 = [] :=
  C5_missing_credentials_fails_before_gateway_calls cexSection none [c5Stack] c5Stack
    (some []) (some []) okOracle [] (fun _ => "x") "r"
    (by decide) (by decide) (by decide) (Or.inr (by decide))

/-- **C1 counterexample**: one declared function with one `http` event whose
method is spelled `"get"`; after a first `synchronize()` run from an empty
gateway (all calls succeeding), the second run with unchanged declarations
still issues state-changing gateway calls (a duplicate subscribe and a
stale unsubscribe), because the match at source lines 179-181 compares the
stored upper-cased method with the declared lower-case one. -/
theorem C1_second_run_not_idempotent :
    mutationCalls (configureEventGateway (secondRunInput natId c1Run1)).1 ≠ [] := by
  decide

/-- **C2 counterexample**: a qualifying declared function with no registered
counterpart whose registration the gateway rejects: `synchronize()` does not
fail (it returns normally), still logs the registration confirmation, and
still issues the subscribe call for the function's event — the registration
error is swallowed by the `to()` wrapper at source line 163. -/
theorem C2_register_error_not_fatal :
    (configureEventGateway c2Input).2 = .ok ()
    ∧ TraceItem.logRegistered "f" (some "myfn") ∈ (configureEventGateway c2Input).1
    ∧ TraceItem.call (.subscribe ⟨some "myfn", some "ping", "/acme/p", none, none⟩)
        ∈ (configureEventGateway c2Input).1 :=
  ⟨rfl, by decide, by decide⟩

/-- The per-event reconciliation loop splits over list concatenation,
threading the working partition. -/
theorem processEvents_append (oracle : Oracle) (subdomain name : String)
    (functionId : Option String) (created : List Subscription)
    (l1 l2 : List TriggerEvent) :
    processEvents oracle subdomain name functionId created (l1 ++ l2)
      = ((processEvents oracle subdomain name functionId
            (processEvents oracle subdomain name functionId created l1).1 l2).1,
         (processEvents oracle subdomain name functionId created l1).2
           ++ (processEvents oracle subdomain name functionId
                (processEvents oracle subdomain name functionId created l1).1 l2).2) := by
  induction l1 generalizing created with
  | nil => simp [processEvents]
  | cons te rest ih =>
    cases hte : te.eventgateway with
    | none => simp [processEvents, hte, ih]
    | some ev =>
      cases hf : created.find? (subMatches subdomain ev) with
      | none => simp [processEvents, hte, hf, ih]
      | some s => simp [processEvents, hte, hf, ih]

/-- The per-event creation loop of the freshly-registered branch splits over
list concatenation. -/
theorem createAllSubscriptions_append (oracle : Oracle) (subdomain name : String)
    (functionId : Option String) (l1 l2 : List TriggerEvent) :
    createAllSubscriptions oracle subdomain name functionId (l1 ++ l2)
      = createAllSubscriptions oracle subdomain name functionId l1
        ++ createAllSubscriptions oracle subdomain name functionId l2 := by
  induction l1 with
  | nil => simp [createAllSubscriptions]
  | cons te rest ih => simp [createAllSubscriptions, ih]

/-- **C4 amended**: in both reconciliation branches, an events entry without
an `eventgateway` section contributes exactly one JS `TypeError` to the
trace — no subscribe call and no confirmation log — and leaves the
processing of the surrounding events unchanged. -/
theorem C4_non_gateway_entry_contributes_only_type_error
    (oracle : Oracle) (subdomain name : String) (functionId : Option String)
    (created : List Subscription) (pre post : List TriggerEvent) :
    (processEvents oracle subdomain name functionId created
        (pre ++ TriggerEvent.mk none :: post)
      = ((processEvents oracle subdomain name functionId
            (processEvents oracle subdomain name functionId created pre).1 post).1,
         (processEvents oracle subdomain name functionId created pre).2
           ++ .jsError "TypeError: Cannot read property 'event' of undefined"
           :: (processEvents oracle subdomain name functionId
                (processEvents oracle subdomain name functionId created pre).1 post).2))
    ∧ createAllSubscriptions oracle subdomain name functionId
        (pre ++ TriggerEvent.mk none :: post)
      = createAllSubscriptions oracle subdomain name functionId pre
        ++ .jsError "TypeError: Cannot read property 'event' of undefined"
        :: createAllSubscriptions oracle subdomain name functionId post := by
  constructor
  · rw [processEvents_append]
    simp [processEvents, createSubscription]
  · rw [createAllSubscriptions_append]
    simp [createAllSubscriptions, createSubscription]

/-- **C2 amended**: with no registered counterpart and a gateway that rejects
the registration, `registerFunction` builds the error naming the function id,
but the engine swallows it: the per-function trace still carries the
registration confirmation log and continues into the subscription-creation
loop for every declared event. -/
theorem C2_register_error_swallowed_processing_continues
    (oracle : Oracle) (subdomain : String) (outputs : String → Option String)
    (naming : String → String) (region : String) (f : DeclaredFunction)
    (functions : List RegisteredFn) (subscriptions : List Subscription)
    (fullArn fid err : String) (evs : List TriggerEvent)
    (hout : outputs (naming f.name) = some fullArn)
    (hfid : (jsSplit fullArn ':')[6]? = some fid)
    (hreg : functions.find? (fun g => some g.functionId == some fid) = none)
    (herr : oracle.registerResult (mkFnDescriptor outputs region fullArn) = some err)
    (hevs : f.events = some evs) :
    (registerFunction oracle (mkFnDescriptor outputs region fullArn)).2
      = some ("Couldn't register a function " ++ fid ++ ". " ++ err ++ ".")
    ∧ (processFunction oracle subdomain outputs naming region f functions subscriptions).1
      = .call (.registerFunction (mkFnDescriptor outputs region fullArn))
        :: .logRegistered f.name (some fid)
        :: createAllSubscriptions oracle subdomain f.name (some fid) evs := by
  have hfd : (mkFnDescriptor outputs region fullArn).functionId = some fid := by
    simp [mkFnDescriptor, hfid]
  constructor
  · simp [registerFunction, herr, hfd, jsTemplate]
  · have hreg' : functions.find? (fun g => g.functionId == fid) = none := by
      simpa using hreg
    simp [processFunction, hout, hfd, hreg', hevs, registerFunction]

/-- **C2 amended witness**: the concrete failing-registration run. -/
theorem C2_register_error_swallowed_processing_continues_witness :
    (registerFunction c2Oracle
        (mkFnDescriptor (parseOutputs cexStack) "us-east-1"
          "arn:aws:lambda:us-east-1:1:function:myfn:3")).2
      = some ("Couldn't register a function " ++ "myfn" ++ ". " ++ "boom" ++ ".")
    ∧ (processFunction c2Oracle "acme" (parseOutputs cexStack) (fun _ => "fArn")
        "us-east-1" ⟨"f", some [⟨some ⟨some "ping", some "/p", none, none⟩⟩]⟩ [] []).1
      = .call (.registerFunction (mkFnDescriptor (parseOutputs cexStack) "us-east-1"
          "arn:aws:lambda:us-east-1:1:function:myfn:3"))
        :: .logRegistered "f" (some "myfn")
        :: createAllSubscriptions c2Oracle "acme" "f" (some "myfn")
            [⟨some ⟨some "ping", some "/p", none, none⟩⟩] :=
  C2_register_error_swallowed_processing_continues c2Oracle "acme"
    (parseOutputs cexStack) (fun _ => "fArn") "us-east-1"
    ⟨"f", some [⟨some ⟨some "ping", some "/p", none, none⟩⟩]⟩ [] []
    "arn:aws:lambda:us-east-1:1:function:myfn:3" "myfn" "boom"
    [⟨some ⟨some "ping", some "/p", none, none⟩⟩]
    (by decide) (by decide) (by decide) (by decide) (by decide)

/-- **C4 counterexample**: a function carrying one gateway event (already
subscribed) and one non-gateway trigger entry: the run issues no
state-changing call, but the non-gateway entry raises a JS `TypeError`
inside its event callback (reading `.event` of `undefined`), contradicting
the claim that such an entry produces no error. -/
theorem C4_non_gateway_event_raises_type_error :
    jsErrors (configureEventGateway c4Input).1 ≠ []
    ∧ mutationCalls (configureEventGateway c4Input).1 = [] :=
  ⟨by decide, by decide⟩

/-- Merging a field under a key the object does not yet have appends it. -/
theorem jupsert_fresh (d : List (String × JVal)) (k : String) (v : JVal)
    (h : k ∉ d.map Prod.fst) : jupsert d k v = d ++ [(k, v)] := by
  induction d with
  | nil => simp [jupsert]
  | cons p rest ih =>
    obtain ⟨k', v'⟩ := p
    simp only [List.map_cons, List.mem_cons, not_or] at h
    simp only [jupsert]
    rw [if_neg (fun hh => h.1 hh.symm), ih h.2]
    simp

/-- Merging a source object whose keys are fresh for the destination and
pairwise distinct appends the source fields. -/
theorem jmergeInto_fresh (s : List (String × JVal)) (d : List (String × JVal))
    (hd : ∀ p ∈ s, p.1 ∉ d.map Prod.fst) (hs : (s.map Prod.fst).Nodup) :
    jmergeInto d s = d ++ s := by
  induction s generalizing d with
  | nil => simp [jmergeInto]
  | cons p rest ih =>
    obtain ⟨k, v⟩ := p
    simp only [List.map_cons, List.nodup_cons] at hs
    have hfresh : ∀ q ∈ rest, q.1 ∉ (d ++ [(k, v)]).map Prod.fst := by
      intro q hq
      have hq1 := hd q (List.mem_cons_of_mem _ hq)
      have hq2 : ¬ q.1 = k := by
        intro hqk
        exact hs.1 (hqk ▸ List.mem_map_of_mem Prod.fst hq)
      simp [hq1, hq2]
    simp only [jmergeInto]
    rw [jupsert_fresh d k v (hd (k, v) (by simp)), ih (d ++ [(k, v)]) hfresh hs.2]
    simp

/-- **C8**: `addUserDefinition` appends exactly the three IAM resources and
the two credential outputs to a template that does not already carry those
logical names, preserving every pre-existing entry verbatim, and the
policy's `Resource` list has exactly one ARN reference per qualifying
function (it is the map over the qualifying-function list, so it is empty —
with the resources still created — when none qualifies). -/
theorem C8_addUserDefinition_shape
    (naming2 : String → String) (service : List DeclaredFunction) (t : Template)
    (h1 : "EventGatewayUser" ∉ t.Resources.map Prod.fst)
    (h2 : "EventGatewayUserPolicy" ∉ t.Resources.map Prod.fst)
    (h3 : "EventGatewayUserKeys" ∉ t.Resources.map Prod.fst)
    (h4 : "EventGatewayUserAccessKey" ∉ t.Outputs.map Prod.fst)
    (h5 : "EventGatewayUserSecretKey" ∉ t.Outputs.map Prod.fst) :
    addUserDefinition naming2 service t
      = { Resources := t.Resources ++ egUserResources (arnRefs naming2 service),
          Outputs := t.Outputs ++ egOutputs }
    ∧ (arnRefs naming2 service).length = (filterFunctionsWithEvents service).length := by
  have hres : ∀ p ∈ egUserResources (arnRefs naming2 service),
      p.1 ∉ t.Resources.map Prod.fst := by
    intro p hp
    simp only [egUserResources, List.mem_cons, List.not_mem_nil, or_false] at hp
    rcases hp with h | h | h <;> subst h
    · exact h1
    · exact h2
    · exact h3
  have hresn : ((egUserResources (arnRefs naming2 service)).map Prod.fst).Nodup := by
    have e : (egUserResources (arnRefs naming2 service)).map Prod.fst
        = ["EventGatewayUser", "EventGatewayUserPolicy", "EventGatewayUserKeys"] := rfl
    rw [e]; decide
  have hon : ∀ p ∈ egOutputs, p.1 ∉ t.Outputs.map Prod.fst := by
    intro p hp
    simp only [egOutputs, List.mem_cons, List.not_mem_nil, or_false] at hp
    rcases hp with h | h <;> subst h
    · exact h4
    · exact h5
  have honn : (egOutputs.map Prod.fst).Nodup := by
    have e : egOutputs.map Prod.fst
        = ["EventGatewayUserAccessKey", "EventGatewayUserSecretKey"] := rfl
    rw [e]; decide
  constructor
  · unfold addUserDefinition
    rw [jmergeInto_fresh _ t.Resources hres hresn, jmergeInto_fresh _ t.Outputs hon honn]
  · simp [arnRefs]

/-- **C8 witness**: augmenting a template with one unrelated resource and
one unrelated output, with two qualifying functions declared. -/
theorem C8_addUserDefinition_shape_witness :
    addUserDefinition (fun n => n ++ "Lambda") c8Service c8Template
      = { Resources := c8Template.Resources
            ++ egUserResources (arnRefs (fun n => n ++ "Lambda") c8Service),
          Outputs := c8Template.Outputs ++ egOutputs }
    ∧ (arnRefs (fun n => n ++ "Lambda") c8Service).length
      = (filterFunctionsWithEvents c8Service).length :=
  C8_addUserDefinition_shape (fun n => n ++ "Lambda") c8Service c8Template
    (by decide) (by decide) (by decide) (by decide) (by decide)

/-! ### Lemmas toward the idempotence theorem (C1) -/

/-- The gateway-state model splits over trace concatenation. -/
theorem applyTrace_append (fresh : Nat → String) (st : GatewayState × Nat)
    (t1 t2 : List TraceItem) :
    applyTrace fresh st (t1 ++ t2) = applyTrace fresh (applyTrace fresh st t1) t2 :=
  List.foldl_append _ _ _ _

/-- The id supply `natId` is injective. -/
theorem natId_injective : Function.Injective natId := by
  intro a b h
  have : (List.replicate a 'i').length = (List.replicate b 'i').length := by
    rw [show List.replicate a 'i' = (natId a).data from rfl,
        show List.replicate b 'i' = (natId b).data from rfl, h]
  simpa using this

/-- A successful subscribe attempt for a canonical event sends exactly the
declared triple: the upper-case round-trip leaves the method unchanged. -/
theorem createSubscription_canonical (subdomain : String) (fid? : Option String)
    (ev : GatewayEvent) (h : canonicalEvent ev = true) :
    createSubscription okOracle subdomain fid? (some ev)
      = ([.call (.subscribe
          { functionId := fid?, event := ev.event, path := eventPath ev subdomain,
            cors := ev.cors, method := ev.method })], none) := by
  unfold canonicalEvent at h
  by_cases hh : ev.event = some "http"
  · rw [if_pos hh] at h
    cases hm : ev.method with
    | none => rw [hm] at h; simp at h
    | some m =>
      rw [hm] at h
      simp only [Bool.and_eq_true, decide_eq_true_eq] at h
      simp [createSubscription, hh, hm, okOracle, h.1, h.2]
  · rw [if_neg hh] at h
    have hm : ev.method = none := by simpa using h
    simp [createSubscription, hh, hm, okOracle]

/-- The reconciliation match accepts the subscription record its own
subscribe request produced. -/
theorem subMatches_subOf (subdomain fid sid : String) (ev : GatewayEvent) :
    subMatches subdomain ev (subOf subdomain fid sid ev) = true := by
  simp [subMatches, subOf]

/-- Every record of a `mkSubs` block carries the block's `functionId`. -/
theorem mkSubs_functionId (fresh : Nat → String) (subdomain fid : String) :
    ∀ (evs : List GatewayEvent) (n : Nat), ∀ s ∈ mkSubs fresh n subdomain fid evs,
      s.functionId = some fid := by
  intro evs
  induction evs with
  | nil => intro n s hs; simp [mkSubs] at hs
  | cons ev rest ih =>
    intro n s hs
    rcases (List.mem_cons).1 hs with h | h
    · subst h; rfl
    · exact ih (n + 1) s h

/-- Every record of a `mkSubs` block has an id `fresh j` with `j` at or
beyond the block's start. -/
theorem mkSubs_sid (fresh : Nat → String) (subdomain fid : String) :
    ∀ (evs : List GatewayEvent) (n : Nat), ∀ s ∈ mkSubs fresh n subdomain fid evs,
      ∃ j, n ≤ j ∧ s.subscriptionId = fresh j := by
  intro evs
  induction evs with
  | nil => intro n s hs; simp [mkSubs] at hs
  | cons ev rest ih =>
    intro n s hs
    rcases (List.mem_cons).1 hs with h | h
    · exact ⟨n, Nat.le_refl n, by rw [h]; rfl⟩
    · obtain ⟨j, hj, hsid⟩ := ih (n + 1) s h
      exact ⟨j, Nat.le_of_succ_le hj, hsid⟩

/-- Filtering a `mkSubs` block by its own function id keeps everything. -/
theorem mkSubs_filter_self (fresh : Nat → String) (subdomain fid : String)
    (evs : List GatewayEvent) (n : Nat) :
    (mkSubs fresh n subdomain fid evs).filter
        (fun s => s.functionId == some fid)
      = mkSubs fresh n subdomain fid evs := by
  rw [List.filter_eq_self]
  intro s hs
  simp [mkSubs_functionId fresh subdomain fid evs n s hs]

/-- Filtering a `mkSubs` block by a different function id drops everything. -/
theorem mkSubs_filter_ne (fresh : Nat → String) (subdomain fid fid' : String)
    (evs : List GatewayEvent) (n : Nat) (h : ¬ fid' = fid) :
    (mkSubs fresh n subdomain fid evs).filter
        (fun s => s.functionId == some fid') = [] := by
  rw [List.filter_eq_nil_iff]
  intro s hs
  simp [mkSubs_functionId fresh subdomain fid evs n s hs]
  exact fun hh => h hh.symm

/-- With a truthy subdomain and apikey, `getClient` returns the SDK handle
bound to the loopback endpoints. -/
theorem getClient_valid (s : EGSection) (envToken : Option String)
    (hsub : jsTruthy s.subdomain = true) (hkey : jsTruthy s.apikey = true) :
    (getClient (some s) envToken).1
      = .ok ⟨"http://localhost:4000", "http://localhost:8080", s.subdomain⟩ := by
  simp [getClient, getConfig, hsub, hkey]

/-- Shape of a `configureEventGateway` run that passes all its up-front
checks: banner, the two list fetches, the per-function reconciliation, and
the orphan cleanup. -/
theorem configureEventGateway_valid (sec : EGSection) (envToken : Option String)
    (stack : Stack) (listF : Option (List RegisteredFn))
    (listS : Option (List Subscription)) (oracle : Oracle)
    (service : List DeclaredFunction) (naming : String → String) (region : String)
    (hsub : jsTruthy sec.subdomain = true) (hkey : jsTruthy sec.apikey = true)
    (hak : jsTruthy (parseOutputs stack "EventGatewayUserAccessKey") = true)
    (hsk : jsTruthy (parseOutputs stack "EventGatewayUserSecretKey") = true) :
    configureEventGateway
        ⟨some sec, envToken, .ok [stack], listF, listS, oracle, service, naming, region⟩
      = (TraceItem.logBanner :: TraceItem.call .listFunctions ::
          TraceItem.call .listSubscriptions ::
          (runFunctions oracle (jsTemplate sec.subdomain) (parseOutputs stack) naming
            region (filterFunctionsWithEvents service) (listF.getD []) (listS.getD [])).1
          ++ deleteOrphans (listS.getD [])
              (runFunctions oracle (jsTemplate sec.subdomain) (parseOutputs stack) naming
                region (filterFunctionsWithEvents service) (listF.getD [])
                (listS.getD [])).2,
         .ok ()) := by
  unfold configureEventGateway
  simp [getClient, getConfig, hsub, hkey, hak, hsk]

/-- A qualifying function has an `events` list. -/
theorem mem_filterFunctions_events_isSome (service : List DeclaredFunction)
    (f : DeclaredFunction) (hf : f ∈ filterFunctionsWithEvents service) :
    f.events.isSome = true := by
  rcases (List.mem_filter).1 hf with ⟨-, hp⟩
  cases he : f.events with
  | none => rw [he] at hp; simp at hp
  | some evs => rfl

/-- Gateway-state effect of the freshly-registered branch's subscription
loop: one new record per canonical gateway event, counter advanced. -/
theorem applyTrace_createAll (fresh : Nat → String) (subdomain name fid : String)
    (evs : List TriggerEvent)
    (hc : ∀ te ∈ evs, ∀ ev, te.eventgateway = some ev → canonicalEvent ev = true) :
    ∀ (fns : List RegisteredFn) (subs : List Subscription) (n : Nat),
    applyTrace fresh (⟨fns, subs⟩, n)
        (createAllSubscriptions okOracle subdomain name (some fid) evs)
      = (⟨fns, subs ++ mkSubs fresh n subdomain fid
            (evs.filterMap (fun te => te.eventgateway))⟩,
         n + (evs.filterMap (fun te => te.eventgateway)).length) := by
  induction evs with
  | nil => intro fns subs n; simp [createAllSubscriptions, applyTrace, mkSubs]
  | cons te rest ih =>
    have hcr : ∀ te2 ∈ rest, ∀ ev, te2.eventgateway = some ev →
        canonicalEvent ev = true :=
      fun te2 h2 ev hev => hc te2 (List.mem_cons_of_mem _ h2) ev hev
    intro fns subs n
    cases hte : te.eventgateway with
    | none =>
      simp only [createAllSubscriptions, hte, createSubscription, List.nil_append]
      rw [show applyTrace fresh (⟨fns, subs⟩, n)
            (TraceItem.jsError "TypeError: Cannot read property 'event' of undefined"
              :: createAllSubscriptions okOracle subdomain name (some fid) rest)
          = applyTrace fresh (⟨fns, subs⟩, n)
              (createAllSubscriptions okOracle subdomain name (some fid) rest) from rfl]
      rw [ih hcr fns subs n]
      simp [List.filterMap_cons, hte]
    | some ev =>
      have hcanon := hc te (List.mem_cons_self te rest) ev hte
      simp only [createAllSubscriptions, hte,
        createSubscription_canonical subdomain (some fid) ev hcanon]
      rw [show (([TraceItem.call (.subscribe
            { functionId := some fid, event := ev.event,
              path := eventPath ev subdomain, cors := ev.cors,
              method := ev.method })] : List TraceItem)
            ++ TraceItem.logSubscribed name ev.event
            :: createAllSubscriptions okOracle subdomain name (some fid) rest)
          = TraceItem.call (.subscribe
              { functionId := some fid, event := ev.event,
                path := eventPath ev subdomain, cors := ev.cors,
                method := ev.method })
            :: TraceItem.logSubscribed name ev.event
            :: createAllSubscriptions okOracle subdomain name (some fid) rest from rfl]
      rw [show applyTrace fresh (⟨fns, subs⟩, n)
            (TraceItem.call (.subscribe
              { functionId := some fid, event := ev.event,
                path := eventPath ev subdomain, cors := ev.cors,
                method := ev.method })
              :: TraceItem.logSubscribed name ev.event
              :: createAllSubscriptions okOracle subdomain name (some fid) rest)
          = applyTrace fresh
              (⟨fns, subs ++ [subOf subdomain fid (fresh n) ev]⟩, n + 1)
              (createAllSubscriptions okOracle subdomain name (some fid) rest)
          from rfl]
      rw [ih hcr fns (subs ++ [subOf subdomain fid (fresh n) ev]) (n + 1)]
      simp [List.filterMap_cons, hte, mkSubs, Nat.add_assoc, Nat.add_comm 1]

/-- Run-1 shape of one function's processing against an empty known-function
set: register, confirm, subscribe each event; the working array stays empty,
and the gateway gains the function and its canonical subscriptions. -/
theorem processFunction_run1 (fresh : Nat → String) (subdomain : String)
    (outputs : String → Option String) (naming : String → String) (region : String)
    (f : DeclaredFunction) (subscriptions : List Subscription)
    (fullArn fid : String) (evs : List TriggerEvent)
    (hout : outputs (naming f.name) = some fullArn)
    (hfid : (jsSplit fullArn ':')[6]? = some fid)
    (hevs : f.events = some evs)
    (hc : ∀ te ∈ evs, ∀ ev, te.eventgateway = some ev → canonicalEvent ev = true) :
    (processFunction okOracle subdomain outputs naming region f [] subscriptions).2 = []
    ∧ ∀ (fns : List RegisteredFn) (subs : List Subscription) (n : Nat),
        applyTrace fresh (⟨fns, subs⟩, n)
          (processFunction okOracle subdomain outputs naming region f [] subscriptions).1
        = (⟨fns ++ [⟨fid⟩], subs ++ mkSubs fresh n subdomain fid (gatewayEventsOf f)⟩,
           n + (gatewayEventsOf f).length) := by
  have hfd : (mkFnDescriptor outputs region fullArn).functionId = some fid := by
    simp [mkFnDescriptor, hfid]
  have hshape : processFunction okOracle subdomain outputs naming region f [] subscriptions
      = (.call (.registerFunction (mkFnDescriptor outputs region fullArn))
          :: .logRegistered f.name (some fid)
          :: createAllSubscriptions okOracle subdomain f.name (some fid) evs, []) := by
    simp [processFunction, hout, hfd, hevs, registerFunction, List.find?, okOracle]
  refine ⟨by rw [hshape], fun fns subs n => ?_⟩
  rw [hshape]
  rw [show applyTrace fresh (⟨fns, subs⟩, n)
        (.call (.registerFunction (mkFnDescriptor outputs region fullArn))
          :: .logRegistered f.name (some fid)
          :: createAllSubscriptions okOracle subdomain f.name (some fid) evs)
      = applyTrace fresh
          ((applyItem fresh (applyItem fresh (⟨fns, subs⟩, n)
            (.call (.registerFunction (mkFnDescriptor outputs region fullArn))))
            (.logRegistered f.name (some fid))))
          (createAllSubscriptions okOracle subdomain f.name (some fid) evs) from rfl]
  rw [show applyItem fresh (applyItem fresh (⟨fns, subs⟩, n)
        (.call (.registerFunction (mkFnDescriptor outputs region fullArn))))
        (.logRegistered f.name (some fid))
      = (⟨fns ++ [⟨fid⟩], subs⟩, n) by simp [applyItem, hfd]]
  have happ := applyTrace_createAll fresh subdomain f.name fid evs hc
    (fns ++ [RegisteredFn.mk fid]) subs n
  rw [show gatewayEventsOf f = evs.filterMap (fun te => te.eventgateway) from by
        simp [gatewayEventsOf, hevs]]
  exact happ

/-- Run-1 shape of the whole reconciliation against an empty gateway: the
working array ends empty and the gateway ends with exactly the declared
functions and one subscription block per function. -/
theorem runFunctions_run1 (fresh : Nat → String) (subdomain : String)
    (outputs : String → Option String) (naming : String → String) (region : String)
    (fidF : DeclaredFunction → String) (L : List DeclaredFunction)
    (subscriptions : List Subscription)
    (hfid : ∀ f ∈ L, fidOf outputs naming f = some (fidF f))
    (hev : ∀ f ∈ L, f.events.isSome = true)
    (hc : ∀ f ∈ L, ∀ te ∈ f.events.getD [], ∀ ev, te.eventgateway = some ev →
        canonicalEvent ev = true) :
    (runFunctions okOracle subdomain outputs naming region L [] subscriptions).2 = []
    ∧ ∀ (fns : List RegisteredFn) (subs : List Subscription) (n : Nat),
        applyTrace fresh (⟨fns, subs⟩, n)
          (runFunctions okOracle subdomain outputs naming region L [] subscriptions).1
        = (⟨fns ++ L.map (fun f => ⟨fidF f⟩),
            subs ++ run1Subs fresh n subdomain fidF L⟩,
           n + totalGatewayEvents L) := by
  induction L with
  | nil =>
    refine ⟨rfl, fun fns subs n => ?_⟩
    simp [runFunctions, applyTrace, run1Subs, totalGatewayEvents]
  | cons f rest ih =>
    obtain ⟨fullArn, hout, hfid6⟩ :
        ∃ arn, outputs (naming f.name) = some arn
          ∧ (jsSplit arn ':')[6]? = some (fidF f) := by
      have h := hfid f (List.mem_cons_self f rest)
      unfold fidOf at h
      exact Option.bind_eq_some.1 h
    obtain ⟨evs, hevs⟩ := Option.isSome_iff_exists.1 (hev f (List.mem_cons_self f rest))
    have hcf : ∀ te ∈ evs, ∀ ev, te.eventgateway = some ev → canonicalEvent ev = true := by
      have h := hc f (List.mem_cons_self f rest)
      rw [hevs] at h
      exact h
    obtain ⟨hpf2, hpf⟩ := processFunction_run1 fresh subdomain outputs naming region f
      subscriptions fullArn (fidF f) evs hout hfid6 hevs hcf
    obtain ⟨hr2, hr⟩ := ih
      (fun g hg => hfid g (List.mem_cons_of_mem _ hg))
      (fun g hg => hev g (List.mem_cons_of_mem _ hg))
      (fun g hg => hc g (List.mem_cons_of_mem _ hg))
    have hrun : runFunctions okOracle subdomain outputs naming region (f :: rest) []
        subscriptions
        = ((processFunction okOracle subdomain outputs naming region f [] subscriptions).1
            ++ (runFunctions okOracle subdomain outputs naming region rest []
                subscriptions).1,
           (runFunctions okOracle subdomain outputs naming region rest []
                subscriptions).2) := by
      simp only [runFunctions, hpf2]
    refine ⟨by rw [hrun]; exact hr2, fun fns subs n => ?_⟩
    rw [hrun, applyTrace_append, hpf fns subs n]
    have happ := hr (fns ++ [RegisteredFn.mk (fidF f)])
      (subs ++ mkSubs fresh n subdomain (fidF f) (gatewayEventsOf f))
      (n + (gatewayEventsOf f).length)
    rw [happ]
    simp [run1Subs, totalGatewayEvents, Nat.add_assoc]

/-- Run-1 subscription blocks for other function ids vanish under the
partition filter. -/
theorem run1Subs_filter_ne (fresh : Nat → String) (subdomain : String)
    (fidF : DeclaredFunction → String) (fid' : String) :
    ∀ (L : List DeclaredFunction) (n : Nat), fid' ∉ L.map fidF →
      (run1Subs fresh n subdomain fidF L).filter
        (fun s => s.functionId == some fid') = [] := by
  intro L
  induction L with
  | nil => intro n _; rfl
  | cons g rest ih =>
    intro n h
    simp only [List.map_cons, List.mem_cons, not_or] at h
    simp only [run1Subs, List.filter_append]
    rw [mkSubs_filter_ne fresh subdomain (fidF g) fid' _ n h.1,
        ih (n + (gatewayEventsOf g).length) h.2]
    rfl

/-- The partition of the run-1 subscription list by a declared function's id
is exactly that function's block (for some starting counter). -/
theorem run1Subs_filter (fresh : Nat → String) (subdomain : String)
    (fidF : DeclaredFunction → String) (f : DeclaredFunction) :
    ∀ (L : List DeclaredFunction) (n : Nat), f ∈ L → (L.map fidF).Nodup →
      ∃ m, (run1Subs fresh n subdomain fidF L).filter
          (fun s => s.functionId == some (fidF f))
        = mkSubs fresh m subdomain (fidF f) (gatewayEventsOf f) := by
  intro L
  induction L with
  | nil => intro n hf _; simp at hf
  | cons g rest ih =>
    intro n hf hnd
    simp only [List.map_cons, List.nodup_cons] at hnd
    simp only [run1Subs, List.filter_append]
    rcases (List.mem_cons).1 hf with hfg | hfr
    · subst hfg
      rw [mkSubs_filter_self fresh subdomain (fidF f) (gatewayEventsOf f) n,
          run1Subs_filter_ne fresh subdomain fidF (fidF f) rest
            (n + (gatewayEventsOf f).length) hnd.1]
      exact ⟨n, by simp⟩
    · have hne : ¬ fidF f = fidF g := by
        intro he
        exact hnd.1 (he ▸ List.mem_map_of_mem fidF hfr)
      rw [mkSubs_filter_ne fresh subdomain (fidF g) (fidF f) _ n hne]
      obtain ⟨m, hm⟩ := ih (n + (gatewayEventsOf g).length) hfr hnd.2
      exact ⟨m, by simp [hm]⟩

/-- Run-2 reconciliation of one function's events against exactly its run-1
subscription block: every event finds its own record, the partition is
emptied, and the trace holds no gateway call. -/
theorem processEvents_run2 (fresh : Nat → String) (hinj : Function.Injective fresh)
    (subdomain name fid : String) :
    ∀ (evs : List TriggerEvent) (m : Nat),
      (∀ te ∈ evs, ∀ ev, te.eventgateway = some ev → canonicalEvent ev = true) →
      (processEvents okOracle subdomain name (some fid)
          (mkSubs fresh m subdomain fid
            (evs.filterMap (fun te => te.eventgateway))) evs).1 = []
      ∧ mutationCalls ((processEvents okOracle subdomain name (some fid)
          (mkSubs fresh m subdomain fid
            (evs.filterMap (fun te => te.eventgateway))) evs)).2 = [] := by
  intro evs
  induction evs with
  | nil => intro m _; exact ⟨rfl, rfl⟩
  | cons te rest ih =>
    intro m hc
    have hcr : ∀ te2 ∈ rest, ∀ ev, te2.eventgateway = some ev →
        canonicalEvent ev = true :=
      fun te2 h2 ev hev => hc te2 (List.mem_cons_of_mem _ h2) ev hev
    cases hte : te.eventgateway with
    | none =>
      have h := ih m hcr
      simp only [processEvents, hte, List.filterMap_cons, mutationCalls] at h ⊢
      refine ⟨h.1, ?_⟩
      simp only [List.filter_cons]
      rw [show isMutationCall
          (.jsError "TypeError: Cannot read property 'event' of undefined") = false
          from rfl]
      simpa using h.2
    | some ev =>
      have hfm : (te :: rest).filterMap (fun te => te.eventgateway)
          = ev :: rest.filterMap (fun te => te.eventgateway) := by
        simp [List.filterMap_cons, hte]
      have hmk : mkSubs fresh m subdomain fid
            ((te :: rest).filterMap (fun te => te.eventgateway))
          = subOf subdomain fid (fresh m) ev
            :: mkSubs fresh (m + 1) subdomain fid
                (rest.filterMap (fun te => te.eventgateway)) := by
        rw [hfm]; rfl
      have hfind : (subOf subdomain fid (fresh m) ev
            :: mkSubs fresh (m + 1) subdomain fid
                (rest.filterMap (fun te => te.eventgateway))).find?
            (subMatches subdomain ev)
          = some (subOf subdomain fid (fresh m) ev) := by
        simp [List.find?, subMatches_subOf]
      have hfilter : (subOf subdomain fid (fresh m) ev
            :: mkSubs fresh (m + 1) subdomain fid
                (rest.filterMap (fun te => te.eventgateway))).filter
            (fun s2 => ¬ s2.subscriptionId
              = (subOf subdomain fid (fresh m) ev).subscriptionId)
          = mkSubs fresh (m + 1) subdomain fid
              (rest.filterMap (fun te => te.eventgateway)) := by
        simp only [List.filter_cons]
        rw [if_neg (by simp)]
        rw [List.filter_eq_self]
        intro s hs
        obtain ⟨j, hj, hsid⟩ := mkSubs_sid fresh subdomain fid _ (m + 1) s hs
        simp only [subOf, hsid, decide_eq_true_eq]
        intro he
        have := hinj he
        omega
      simp only [processEvents, hte, hmk, hfind, hfilter]
      exact ih (m + 1) hcr

/-- Run-2 shape of one function's processing: the function is found and
removed from the working array, its partition reconciles without any call,
and nothing is left to clean up. -/
theorem processFunction_run2 (fresh : Nat → String) (hinj : Function.Injective fresh)
    (subdomain : String) (outputs : String → Option String)
    (naming : String → String) (region : String) (f : DeclaredFunction)
    (F' : List RegisteredFn) (subscriptions : List Subscription)
    (fullArn fid : String) (evs : List TriggerEvent) (m : Nat)
    (hout : outputs (naming f.name) = some fullArn)
    (hfid : (jsSplit fullArn ':')[6]? = some fid)
    (hevs : f.events = some evs)
    (hc : ∀ te ∈ evs, ∀ ev, te.eventgateway = some ev → canonicalEvent ev = true)
    (hF' : ∀ g ∈ F', ¬ g.functionId = fid)
    (hpart : subscriptions.filter (fun s => s.functionId == some fid)
        = mkSubs fresh m subdomain fid (gatewayEventsOf f)) :
    (processFunction okOracle subdomain outputs naming region f
        (⟨fid⟩ :: F') subscriptions).2 = F'
    ∧ mutationCalls (processFunction okOracle subdomain outputs naming region f
        (⟨fid⟩ :: F') subscriptions).1 = [] := by
  have hfd : (mkFnDescriptor outputs region fullArn).functionId = some fid := by
    simp [mkFnDescriptor, hfid]
  have hfind : (RegisteredFn.mk fid :: F').find?
      (fun g => some g.functionId == some fid) = some (RegisteredFn.mk fid) := by
    simp [List.find?]
  have hfilter : (RegisteredFn.mk fid :: F').filter
      (fun g => ¬ (some g.functionId == some fid)) = F' := by
    simp only [List.filter_cons]
    rw [if_neg (by simp)]
    rw [List.filter_eq_self]
    intro g hg
    simpa using hF' g hg
  have hgw : gatewayEventsOf f = evs.filterMap (fun te => te.eventgateway) := by
    simp [gatewayEventsOf, hevs]
  obtain ⟨hpe1, hpe2⟩ := processEvents_run2 fresh hinj subdomain f.name fid evs m hc
  rw [hgw] at hpart
  constructor
  · simp only [processFunction, hout, hfd, hfind, hevs, hfilter]
  · simp only [processFunction, hout, hfd, hfind, hevs, hfilter, hpart, hpe1,
      List.foldr_nil, List.append_nil]
    exact hpe2

/-- Run-2 shape of the whole reconciliation: with the gateway reporting
exactly the declared functions and their run-1 subscription blocks, no
state-changing call is issued and the working array empties. -/
theorem runFunctions_run2 (fresh : Nat → String) (hinj : Function.Injective fresh)
    (subdomain : String) (outputs : String → Option String)
    (naming : String → String) (region : String) (fidF : DeclaredFunction → String) :
    ∀ (R : List DeclaredFunction) (subscriptions : List Subscription),
      (∀ f ∈ R, fidOf outputs naming f = some (fidF f)) →
      (∀ f ∈ R, f.events.isSome = true) →
      (∀ f ∈ R, ∀ te ∈ f.events.getD [], ∀ ev, te.eventgateway = some ev →
          canonicalEvent ev = true) →
      (R.map fidF).Nodup →
      (∀ f ∈ R, ∃ m, subscriptions.filter (fun s => s.functionId == some (fidF f))
          = mkSubs fresh m subdomain (fidF f) (gatewayEventsOf f)) →
      (runFunctions okOracle subdomain outputs naming region R
          (R.map (fun f => ⟨fidF f⟩)) subscriptions).2 = []
      ∧ mutationCalls (runFunctions okOracle subdomain outputs naming region R
          (R.map (fun f => ⟨fidF f⟩)) subscriptions).1 = [] := by
  intro R
  induction R with
  | nil => intro subscriptions _ _ _ _ _; exact ⟨rfl, rfl⟩
  | cons f rest ih =>
    intro subscriptions hfid hev hc hnd hpart
    simp only [List.map_cons, List.nodup_cons] at hnd
    obtain ⟨fullArn, hout, hfid6⟩ :
        ∃ arn, outputs (naming f.name) = some arn
          ∧ (jsSplit arn ':')[6]? = some (fidF f) := by
      have h := hfid f (List.mem_cons_self f rest)
      unfold fidOf at h
      exact Option.bind_eq_some.1 h
    obtain ⟨evs, hevs⟩ := Option.isSome_iff_exists.1 (hev f (List.mem_cons_self f rest))
    have hcf : ∀ te ∈ evs, ∀ ev, te.eventgateway = some ev →
        canonicalEvent ev = true := by
      have h := hc f (List.mem_cons_self f rest)
      rw [hevs] at h
      exact h
    have hF' : ∀ g ∈ rest.map (fun f => RegisteredFn.mk (fidF f)),
        ¬ g.functionId = fidF f := by
      intro g hg
      obtain ⟨h, hh, rfl⟩ := List.mem_map.1 hg
      intro he
      exact hnd.1 (he ▸ List.mem_map_of_mem fidF hh)
    obtain ⟨m, hm⟩ := hpart f (List.mem_cons_self f rest)
    obtain ⟨hp2, hp1⟩ := processFunction_run2 fresh hinj subdomain outputs naming region
      f (rest.map (fun f => RegisteredFn.mk (fidF f))) subscriptions fullArn (fidF f)
      evs m hout hfid6 hevs hcf hF' hm
    obtain ⟨hr2, hr1⟩ := ih subscriptions
      (fun g hg => hfid g (List.mem_cons_of_mem _ hg))
      (fun g hg => hev g (List.mem_cons_of_mem _ hg))
      (fun g hg => hc g (List.mem_cons_of_mem _ hg))
      hnd.2
      (fun g hg => hpart g (List.mem_cons_of_mem _ hg))
    have hrun : runFunctions okOracle subdomain outputs naming region (f :: rest)
        ((f :: rest).map (fun f => RegisteredFn.mk (fidF f))) subscriptions
        = ((processFunction okOracle subdomain outputs naming region f
              ((f :: rest).map (fun f => RegisteredFn.mk (fidF f))) subscriptions).1
            ++ (runFunctions okOracle subdomain outputs naming region rest
                (rest.map (fun f => RegisteredFn.mk (fidF f))) subscriptions).1,
           (runFunctions okOracle subdomain outputs naming region rest
                (rest.map (fun f => RegisteredFn.mk (fidF f))) subscriptions).2) := by
      simp only [runFunctions, List.map_cons, hp2]
    rw [hrun]
    refine ⟨hr2, ?_⟩
    simp only [mutationCalls, List.filter_append] at hp1 hr1 ⊢
    rw [show (processFunction okOracle subdomain outputs naming region f
        ((f :: rest).map (fun f => RegisteredFn.mk (fidF f))) subscriptions).1
        = (processFunction okOracle subdomain outputs naming region f
        (RegisteredFn.mk (fidF f) :: rest.map (fun f => RegisteredFn.mk (fidF f)))
        subscriptions).1 from rfl]
    rw [hp1, hr1]
    rfl

/-- **C1 amended**: starting from an empty gateway with every call
succeeding, a second `synchronize()` run with unchanged declarations issues
zero registerFunction, subscribe, unsubscribe and deleteFunction calls —
provided every qualifying function's version-ARN output yields a
functionId, those functionIds are pairwise distinct, and every declared
gateway event is canonical (an `http` event carries a non-empty,
already-upper-case method; any other event carries no method), so that the
engine's stored subscribe requests match the declared triples verbatim. -/
theorem C1_sync_idempotent_for_canonical_declarations
    (sec : EGSection) (envToken : Option String) (stack : Stack)
    (service : List DeclaredFunction) (naming : String → String) (region : String)
    (fresh : Nat → String) (fidF : DeclaredFunction → String)
    (hsub : jsTruthy sec.subdomain = true) (hkey : jsTruthy sec.apikey = true)
    (hak : jsTruthy (parseOutputs stack "EventGatewayUserAccessKey") = true)
    (hsk : jsTruthy (parseOutputs stack "EventGatewayUserSecretKey") = true)
    (hinj : Function.Injective fresh)
    (hfid : ∀ f ∈ filterFunctionsWithEvents service,
        fidOf (parseOutputs stack) naming f = some (fidF f))
    (hnd : ((filterFunctionsWithEvents service).map fidF).Nodup)
    (hcanon : ∀ f ∈ filterFunctionsWithEvents service, canonicalFunction f = true) :
    mutationCalls (configureEventGateway (secondRunInput fresh
      ⟨some sec, envToken, .ok [stack], some [], some [], okOracle, service,
       naming, region⟩)).1 = [] := by
  have hev : ∀ f ∈ filterFunctionsWithEvents service, f.events.isSome = true :=
    fun f hf => mem_filterFunctions_events_isSome service f hf
  have hc : ∀ f ∈ filterFunctionsWithEvents service,
      ∀ te ∈ f.events.getD [], ∀ ev, te.eventgateway = some ev →
        canonicalEvent ev = true := by
    intro f hf te hte ev hev2
    have h := hcanon f hf
    unfold canonicalFunction at h
    rw [List.all_eq_true] at h
    have h2 := h te hte
    rw [hev2] at h2
    exact h2
  obtain ⟨hr12, hr1⟩ := runFunctions_run1 fresh (jsTemplate sec.subdomain)
    (parseOutputs stack) naming region fidF (filterFunctionsWithEvents service) []
    hfid hev hc
  have h1 := configureEventGateway_valid sec envToken stack (some []) (some [])
    okOracle service naming region hsub hkey hak hsk
  have hstate : (applyTrace fresh (⟨[], []⟩, 0)
      (configureEventGateway ⟨some sec, envToken, .ok [stack], some [], some [],
        okOracle, service, naming, region⟩).1).1
      = ⟨(filterFunctionsWithEvents service).map (fun f => ⟨fidF f⟩),
         run1Subs fresh 0 (jsTemplate sec.subdomain) fidF
           (filterFunctionsWithEvents service)⟩ := by
    rw [h1]
    simp only [Option.getD_some]
    rw [hr12]
    rw [show deleteOrphans [] ([] : List RegisteredFn) = [] from rfl]
    rw [show applyTrace fresh (⟨[], []⟩, 0)
          (TraceItem.logBanner :: TraceItem.call .listFunctions ::
            TraceItem.call .listSubscriptions ::
            (runFunctions okOracle (jsTemplate sec.subdomain) (parseOutputs stack)
              naming region (filterFunctionsWithEvents service) [] []).1 ++ [])
        = applyTrace fresh (⟨[], []⟩, 0)
            ((runFunctions okOracle (jsTemplate sec.subdomain) (parseOutputs stack)
              naming region (filterFunctionsWithEvents service) [] []).1 ++ [])
        from rfl]
    rw [List.append_nil, hr1 [] [] 0]
    simp
  have hpart : ∀ f ∈ filterFunctionsWithEvents service,
      ∃ m, (run1Subs fresh 0 (jsTemplate sec.subdomain) fidF
          (filterFunctionsWithEvents service)).filter
          (fun s => s.functionId == some (fidF f))
        = mkSubs fresh m (jsTemplate sec.subdomain) (fidF f) (gatewayEventsOf f) :=
    fun f hf => run1Subs_filter fresh (jsTemplate sec.subdomain) fidF f
      (filterFunctionsWithEvents service) 0 hf hnd
  obtain ⟨hr22, hr21⟩ := runFunctions_run2 fresh hinj (jsTemplate sec.subdomain)
    (parseOutputs stack) naming region fidF (filterFunctionsWithEvents service)
    (run1Subs fresh 0 (jsTemplate sec.subdomain) fidF
      (filterFunctionsWithEvents service))
    hfid hev hc hnd hpart
  have h2 := configureEventGateway_valid sec envToken stack
    (some ((filterFunctionsWithEvents service).map (fun f => ⟨fidF f⟩)))
    (some (run1Subs fresh 0 (jsTemplate sec.subdomain) fidF
      (filterFunctionsWithEvents service)))
    okOracle service naming region hsub hkey hak hsk
  rw [show secondRunInput fresh
        ⟨some sec, envToken, .ok [stack], some [], some [], okOracle, service,
         naming, region⟩
      = ⟨some sec, envToken, .ok [stack],
         some ((applyTrace fresh (⟨[], []⟩, 0)
          (configureEventGateway ⟨some sec, envToken, .ok [stack], some [], some [],
            okOracle, service, naming, region⟩).1).1).functions,
         some ((applyTrace fresh (⟨[], []⟩, 0)
          (configureEventGateway ⟨some sec, envToken, .ok [stack], some [], some [],
            okOracle, service, naming, region⟩).1).1).subscriptions,
         okOracle, service, naming, region⟩ from rfl]
  rw [hstate]
  rw [h2]
  simp only [Option.getD_some]
  rw [hr22]
  rw [show deleteOrphans (run1Subs fresh 0 (jsTemplate sec.subdomain) fidF
        (filterFunctionsWithEvents service)) ([] : List RegisteredFn) = [] from rfl]
  rw [List.append_nil]
  rw [show mutationCalls (TraceItem.logBanner :: TraceItem.call .listFunctions ::
        TraceItem.call .listSubscriptions ::
        (runFunctions okOracle (jsTemplate sec.subdomain) (parseOutputs stack) naming
          region (filterFunctionsWithEvents service)
          ((filterFunctionsWithEvents service).map (fun f => ⟨fidF f⟩))
          (run1Subs fresh 0 (jsTemplate sec.subdomain) fidF
            (filterFunctionsWithEvents service))).1)
      = mutationCalls
          (runFunctions okOracle (jsTemplate sec.subdomain) (parseOutputs stack) naming
            region (filterFunctionsWithEvents service)
            ((filterFunctionsWithEvents service).map (fun f => ⟨fidF f⟩))
            (run1Subs fresh 0 (jsTemplate sec.subdomain) fidF
              (filterFunctionsWithEvents service))).1 from rfl]
  exact hr21

/-- **C1 amended witness**: the concrete one-function service with the
canonical method spelling `"GET"`; the second run issues no state-changing
call. -/
theorem C1_sync_idempotent_for_canonical_declarations_witness :
    mutationCalls (configureEventGateway (secondRunInput natId c1CanonRun1)).1 = [] :=
  C1_sync_idempotent_for_canonical_declarations cexSection none cexStack
    c1CanonService (fun _ => "fArn") "us-east-1" natId (fun _ => "myfn")
    (by decide) (by decide) (by decide) (by decide) natId_injective
    (by decide) (by decide) (by decide)

end EGPlugin

